import Mathlib

/-!
Shallow embedding of the highlight-go error-reporting client (highlight.go,
the current revision: package-level state, lifecycle, ConsumeError, flush,
shutdown, InterceptRequestWithContext, graphqlRequester.trigger), together
with theorems settling the frozen claims about it.

Modelling conventions:
* Go strings are Lean `String` (the split routine works over `List Char`).
* `context.Context` is a stack of key/value pairs; `context.WithValue`
  conses in front and `ctx.Value` returns the most recently added binding,
  as in Go.
* The buffered channel `errorChan` is a FIFO `List BackendErrorObjectInput`;
  a send appends at the back, a receive takes the front.
* `time.Time` is an abstract tick (`Nat`).
* `sync.WaitGroup` is a counter; the concurrency of `ConsumeError` against
  `shutdown` is modelled as a small-step interleaving relation whose atomic
  steps are the individual statements of the Go source.
-/

namespace Highlight

/-- Embeds the Go `contextKey` constants: `Highlight`, `RequestID`,
`SessionSecureID` from highlight.go. -/
def HighlightKey : String := "highlight"

/-- Context key under which the request identifier is stored. -/
def RequestID : String := HighlightKey ++ "RequestID"

/-- Context key under which the session secure identifier is stored. -/
def SessionSecureID : String := HighlightKey ++ "SessionSecureID"

/-- A Go `context.Context` carrying string values: a stack of key/value
pairs, most recent first (`context.WithValue` wraps the old context). -/
abbrev Ctx := List (String × String)

/-- Embeds Go `ctx.Value(key)`: the most recently added binding for the key,
or `none` when the key is absent (Go returns `nil`). -/
def ctxValue (ctx : Ctx) (key : String) : Option String :=
  match ctx with
  | [] => none
  | (k, v) :: rest => if k = key then some v else ctxValue rest key

/-- Embeds the Go struct `BackendErrorObjectInput` of highlight.go. -/
structure BackendErrorObjectInput where
  sessionSecureID : String
  requestID : String
  event : String
  errType : String
  url : String
  source : String
  stackTrace : String
  timestamp : Nat
  payload : Option String
deriving DecidableEq, Repr

/-- The zero value of `BackendErrorObjectInput`, the sentinel that
`flush` compares against (`e == (BackendErrorObjectInput{})`). -/
def zeroRecord : BackendErrorObjectInput :=
  { sessionSecureID := "", requestID := "", event := "", errType := ""
    url := "", source := "", stackTrace := "", timestamp := 0
    payload := none }

/-- Embeds the Go `appState` enum: `idle`, `started`, `stopped`. -/
inductive AppState where
  | idle
  | started
  | stopped
deriving DecidableEq, Repr

/-- Error message constant `consumeErrorSessionIDMissing` of highlight.go. -/
def consumeErrorSessionIDMissing : String :=
  "context does not contain highlightSessionSecureID; context must have injected values from highlight.InterceptRequest"

/-- Error message constant `consumeErrorRequestIDMissing` of highlight.go. -/
def consumeErrorRequestIDMissing : String :=
  "context does not contain highlightRequestID; context must have injected values from highlight.InterceptRequest"

/-- Error message constant `consumeErrorWorkerStopped` of highlight.go. -/
def consumeErrorWorkerStopped : String :=
  "highlight worker stopped"

/-- Error message returned by `ConsumeError` when a `stackTracer` error has
no stack frames. -/
def consumeErrorNoStackFrames : String :=
  "no stack frames in stack trace for stackTracer errors"

/-- Minimal JSON string escaping used by the embedding of
`json.Marshal` on string slices (quote and backslash escaped). -/
def jsonEscapeChar (c : Char) : List Char :=
  if c = '"' ∨ c = '\\' then ['\\', c] else [c]

/-- Embeds `json.Marshal` applied to one Go string. -/
def jsonEncodeString (s : String) : String :=
  "\"" ++ String.mk ((s.data.map jsonEscapeChar).flatten) ++ "\""

/-- Embeds `json.Marshal` applied to a Go `[]string` (the `tags` slice and
the marshalled stack frames). On `[]string` this marshalling never fails. -/
def jsonEncodeStrings (tags : List String) : String :=
  "[" ++ String.intercalate "," (tags.map jsonEncodeString) ++ "]"

/-- The `errorInput interface{}` argument of `ConsumeError`, classified the
way the Go type switch classifies it: a value implementing `stackTracer`
(with its message and its already-text-marshalled stack frames), a plain
`error`, or any other value (with its `%v` rendering). -/
inductive ErrorInput where
  | stackTracerErr (message : String) (frames : List String)
  | plainError (message : String)
  | otherValue (rendering : String)
deriving DecidableEq, Repr

/-- Embeds the body of Go `ConsumeError` (highlight.go, current revision):
the stopped-state check, the session and request context lookups, tag
serialization, record construction, and the `errorInput` type switch.
Returns the record that is sent on `errorChan`, or the error returned to
the caller. The wall-clock `time.Now()` is passed in as `timestamp`. -/
def ConsumeError (state : AppState) (ctx : Ctx) (errorInput : ErrorInput)
    (tags : List String) (timestamp : Nat) :
    Except String BackendErrorObjectInput :=
  if state = AppState.stopped then
    Except.error consumeErrorWorkerStopped
  else
    match ctxValue ctx SessionSecureID with
    | none => Except.error consumeErrorSessionIDMissing
    | some sessionSecureID =>
      match ctxValue ctx RequestID with
      | none => Except.error consumeErrorRequestIDMissing
      | some requestID =>
        let tagsString := jsonEncodeStrings tags
        let convertedError : BackendErrorObjectInput :=
          { sessionSecureID := sessionSecureID
            requestID := requestID
            event := ""
            errType := "BACKEND"
            url := ""
            source := ""
            stackTrace := ""
            timestamp := timestamp
            payload := some tagsString }
        match errorInput with
        | ErrorInput.stackTracerErr message frames =>
          if frames.length < 1 then
            Except.error consumeErrorNoStackFrames
          else
            Except.ok { convertedError with
              event := message
              stackTrace := jsonEncodeStrings frames }
        | ErrorInput.plainError message =>
          Except.ok { convertedError with
            event := message, stackTrace := message }
        | ErrorInput.otherValue rendering =>
          Except.ok { convertedError with
            event := rendering, stackTrace := rendering }

/-- The effect of one `ConsumeError` call on the queue: on success the
record is sent on `errorChan` (appended at the back of the FIFO buffer),
on any error path nothing is enqueued. -/
def ConsumeErrorStep (state : AppState)
    (errorChan : List BackendErrorObjectInput) (ctx : Ctx)
    (errorInput : ErrorInput) (tags : List String) (timestamp : Nat) :
    Except String Unit × List BackendErrorObjectInput :=
  match ConsumeError state ctx errorInput tags timestamp with
  | Except.error m => (Except.error m, errorChan)
  | Except.ok r => (Except.ok (), errorChan ++ [r])

/-- Embeds Go `strings.Split(s, "/")` (single-character separator):
the substrings of `s` between occurrences of the slash; the empty string
splits to `[""]`. -/
def splitOnSlash (s : List Char) : List (List Char) :=
  match s with
  | [] => [[]]
  | c :: rest =>
    if c = '/' then [] :: splitOnSlash rest
    else
      match splitOnSlash rest with
      | [] => [[c]]
      | p :: ps => (c :: p) :: ps

/-- Embeds Go `InterceptRequestWithContext`: reads the
`X-Highlight-Request` header value (passed here as `header`), splits it on
`/`, and when at least two parts result stores part 0 under
`SessionSecureID` and part 1 under `RequestID` (the request-ID binding is
added second, so it is outermost). Otherwise returns the context
unchanged. -/
def InterceptRequestWithContext (ctx : Ctx) (header : List Char) : Ctx :=
  let ids := splitOnSlash header
  if ids.length < 2 then ctx
  else
    (RequestID, String.mk (ids.getD 1 [])) ::
      (SessionSecureID, String.mk (ids.getD 0 [])) :: ctx

/-- Embeds the receive loop of Go `flush`: perform `n` receives from the
FIFO channel, skipping records equal to the zero value, accumulating the
rest in order. Returns the flushed batch and the remaining channel
contents. -/
def drainLoop (n : Nat) (chan : List BackendErrorObjectInput) :
    List BackendErrorObjectInput × List BackendErrorObjectInput :=
  match n, chan with
  | 0, chan => ([], chan)
  | _ + 1, [] => ([], [])
  | m + 1, e :: rest =>
    if e = zeroRecord then drainLoop m rest
    else (e :: (drainLoop m rest).1, (drainLoop m rest).2)

/-- Embeds Go `flush` as run against a channel whose content at the moment
`tempChanSize := len(errorChan)` executes is `snapshot`, with `arrivals`
the records sent (appended) by producers while the receive loop runs:
the loop performs exactly `snapshot.length` receives from the FIFO. -/
def flush (snapshot arrivals : List BackendErrorObjectInput) :
    List BackendErrorObjectInput × List BackendErrorObjectInput :=
  drainLoop snapshot.length (snapshot ++ arrivals)

/-- Embeds Go `graphqlRequester.trigger`: batches shorter than 1 record
cause no network mutation and succeed; otherwise the mutation is issued
and the network's verdict (abstracted as `net`) is returned. The first
component records the payload of the issued mutation, if any. -/
def trigger (net : List BackendErrorObjectInput → Except String Unit)
    (errorsInput : List BackendErrorObjectInput) :
    Option (List BackendErrorObjectInput) × Except String Unit :=
  if errorsInput.length < 1 then (none, Except.ok ())
  else (some errorsInput, net errorsInput)

/-- Observable state of the lifecycle controller relevant to
`StartWithContext`: the `state` variable and how many flush-worker
goroutines have been launched so far. -/
structure LifecycleState where
  state : AppState
  workersLaunched : Nat
deriving DecidableEq, Repr

/-- Embeds Go `StartWithContext`: it returns immediately when
`state == started`; otherwise it sets `state = started` and launches a new
flush-worker goroutine. (The Go source checks only `started`, not
`stopped`.) -/
def StartWithContext (s : LifecycleState) : LifecycleState :=
  if s.state = AppState.started then s
  else { state := AppState.started, workersLaunched := s.workersLaunched + 1 }

/-- Readiness of the four cases of the `select` in the flush-worker loop of
`StartWithContext`: the periodic timer, `interruptChan`, `signalChan`, and
`ctx.Done()`. -/
structure SelectReady where
  timerElapsed : Bool
  interrupt : Bool
  osSignal : Bool
  ctxDone : Bool
deriving DecidableEq, Repr

/-- The four cases of the worker's `select` statement. -/
inductive SelectCase where
  | timer
  | interrupt
  | osSignal
  | ctxDone
deriving DecidableEq, Repr

/-- Go semantics of the plain `select` statement in `StartWithContext`:
when one or more cases can proceed, a single one is chosen by uniform
pseudo-random selection among exactly the ready ones (Go spec, select
statements); the source gives no case any priority, so a case may be
chosen precisely when it is ready. -/
def selectCanChoose (r : SelectReady) (c : SelectCase) : Bool :=
  match c with
  | SelectCase.timer => r.timerElapsed
  | SelectCase.interrupt => r.interrupt
  | SelectCase.osSignal => r.osSignal
  | SelectCase.ctxDone => r.ctxDone

/-- What the worker loop body does once a select case is chosen. -/
inductive WorkerAction where
  | flushAndContinue
  | shutdownAndReturn
deriving DecidableEq, Repr

/-- The body of each select case in `StartWithContext`: the timer case
flushes and continues the loop; the `interruptChan`, `signalChan` and
`ctx.Done()` cases call `shutdown()` and return. -/
def handleCase (c : SelectCase) : WorkerAction :=
  match c with
  | SelectCase.timer => WorkerAction.flushAndContinue
  | SelectCase.interrupt => WorkerAction.shutdownAndReturn
  | SelectCase.osSignal => WorkerAction.shutdownAndReturn
  | SelectCase.ctxDone => WorkerAction.shutdownAndReturn

/-- Program counter of one `ConsumeError` call, one atomic statement per
value: the `state == stopped` check, `wg.Add(1)` (the deferred `wg.Done()`
runs at return), the channel send, the deferred `wg.Done()`, and the
possible outcomes. -/
inductive ConsumePc where
  | checkState
  | addToWaitGroup
  | sendOnChan
  | doneWaitGroup
  | returnedStopped
  | returnedOk
  | panickedOnClosedChan
deriving DecidableEq, Repr

/-- Program counter of the `shutdown()` call run by the worker after a stop
signal: the `state == stopped || state == idle` check, `state = stopped`,
`wg.Wait()`, the three `close` calls (merged into one atomic step, the
close of `errorChan` being the one `ConsumeError` races with), and
return. -/
inductive ShutdownPc where
  | checkState
  | setStopped
  | waitOnWaitGroup
  | closeChans
  | returned
deriving DecidableEq, Repr

/-- Shared state of the `ConsumeError` / `shutdown` interleaving: the
lifecycle `state` variable, the `sync.WaitGroup` counter, whether
`errorChan` has been closed, and the two program counters. -/
structure RaceState where
  state : AppState
  wgCounter : Nat
  chanClosed : Bool
  consume : ConsumePc
  shut : ShutdownPc
deriving DecidableEq, Repr

/-- One atomic step of either thread, statement by statement from the Go
source of `ConsumeError` and `shutdown`. `wg.Wait()` can only complete
when the counter is zero; a send on a closed channel panics. The
validation and record-construction statements of `ConsumeError` touch no
shared state and are elided between `wg.Add(1)` and the send. -/
inductive RaceStep : RaceState → RaceState → Prop where
  | consumeSeesStopped (n : Nat) (cl : Bool) (spc : ShutdownPc) :
      RaceStep ⟨AppState.stopped, n, cl, ConsumePc.checkState, spc⟩
        ⟨AppState.stopped, n, cl, ConsumePc.returnedStopped, spc⟩
  | consumePassesCheck (st : AppState) (n : Nat) (cl : Bool)
      (spc : ShutdownPc) (h : st ≠ AppState.stopped) :
      RaceStep ⟨st, n, cl, ConsumePc.checkState, spc⟩
        ⟨st, n, cl, ConsumePc.addToWaitGroup, spc⟩
  | consumeAdds (st : AppState) (n : Nat) (cl : Bool) (spc : ShutdownPc) :
      RaceStep ⟨st, n, cl, ConsumePc.addToWaitGroup, spc⟩
        ⟨st, n + 1, cl, ConsumePc.sendOnChan, spc⟩
  | consumeSendsOnClosed (st : AppState) (n : Nat) (spc : ShutdownPc) :
      RaceStep ⟨st, n, true, ConsumePc.sendOnChan, spc⟩
        ⟨st, n, true, ConsumePc.panickedOnClosedChan, spc⟩
  | consumeSendsOk (st : AppState) (n : Nat) (spc : ShutdownPc) :
      RaceStep ⟨st, n, false, ConsumePc.sendOnChan, spc⟩
        ⟨st, n, false, ConsumePc.doneWaitGroup, spc⟩
  | consumeDone (st : AppState) (n : Nat) (cl : Bool) (spc : ShutdownPc) :
      RaceStep ⟨st, n, cl, ConsumePc.doneWaitGroup, spc⟩
        ⟨st, n - 1, cl, ConsumePc.returnedOk, spc⟩
  | shutdownNoop (st : AppState) (n : Nat) (cl : Bool) (cpc : ConsumePc)
      (h : st = AppState.stopped ∨ st = AppState.idle) :
      RaceStep ⟨st, n, cl, cpc, ShutdownPc.checkState⟩
        ⟨st, n, cl, cpc, ShutdownPc.returned⟩
  | shutdownProceeds (st : AppState) (n : Nat) (cl : Bool) (cpc : ConsumePc)
      (h : ¬(st = AppState.stopped ∨ st = AppState.idle)) :
      RaceStep ⟨st, n, cl, cpc, ShutdownPc.checkState⟩
        ⟨st, n, cl, cpc, ShutdownPc.setStopped⟩
  | shutdownSetsStopped (st : AppState) (n : Nat) (cl : Bool) (cpc : ConsumePc) :
      RaceStep ⟨st, n, cl, cpc, ShutdownPc.setStopped⟩
        ⟨AppState.stopped, n, cl, cpc, ShutdownPc.waitOnWaitGroup⟩
  | shutdownWaitReturns (st : AppState) (cl : Bool) (cpc : ConsumePc) :
      RaceStep ⟨st, 0, cl, cpc, ShutdownPc.waitOnWaitGroup⟩
        ⟨st, 0, cl, cpc, ShutdownPc.closeChans⟩
  | shutdownCloses (st : AppState) (n : Nat) (cpc : ConsumePc) :
      RaceStep ⟨st, n, false, cpc, ShutdownPc.closeChans⟩
        ⟨st, n, true, cpc, ShutdownPc.returned⟩

/-- A concrete non-sentinel record, as `ConsumeError` would build it, used
to instantiate witnesses. -/
def sampleRecordA : BackendErrorObjectInput :=
  { sessionSecureID := "sess1", requestID := "req1", event := "boom"
    errType := "BACKEND", url := "", source := "", stackTrace := "boom"
    timestamp := 3, payload := some "[]" }

/-- A second concrete non-sentinel record for witness instantiations. -/
def sampleRecordB : BackendErrorObjectInput :=
  { sampleRecordA with event := "later", stackTrace := "later", timestamp := 5 }

/-- The receive loop of `flush` performs exactly `snapshot.length`
receives, so it consumes exactly the snapshot and leaves the arrivals:
FIFO receives take the snapshot elements first. -/
theorem drainLoop_snapshot (q a : List BackendErrorObjectInput)
    (h : ∀ r ∈ q, r ≠ zeroRecord) :
    drainLoop q.length (q ++ a) = (q, a) := by
  induction q with
  | nil => simp [drainLoop]
  | cons e rest ih =>
    have he : e ≠ zeroRecord := h e (List.mem_cons_self e rest)
    have ih2 := ih (fun r hr => h r (List.mem_cons_of_mem e hr))
    simp [drainLoop, he, ih2]

/-- The batch returned by the receive loop of `flush` never contains the
zero-valued sentinel record. -/
theorem zeroRecord_notMem_drainLoop (n : Nat) :
    ∀ chan : List BackendErrorObjectInput, zeroRecord ∉ (drainLoop n chan).1 := by
  induction n with
  | zero => intro chan; simp [drainLoop]
  | succ m ih =>
    intro chan
    cases chan with
    | nil => simp [drainLoop]
    | cons e rest =>
      by_cases he : e = zeroRecord
      · simpa [drainLoop, he] using ih rest
      · simp [drainLoop, he, ih rest, Ne.symm he]

/-- Splitting a slash-free character list yields a single part. -/
theorem splitOnSlash_no_slash (s : List Char) (h : '/' ∉ s) :
    splitOnSlash s = [s] := by
  induction s with
  | nil => rfl
  | cons c rest ih =>
    have hc : c ≠ '/' := fun hh => h (hh ▸ List.mem_cons_self c rest)
    have hr : '/' ∉ rest := fun hh => h (List.mem_cons_of_mem c hh)
    simp [splitOnSlash, hc, ih hr]

/-- Splitting peels off the slash-free prefix before the first slash. -/
theorem splitOnSlash_append (s r : List Char) (h : '/' ∉ s) :
    splitOnSlash (s ++ '/' :: r) = s :: splitOnSlash r := by
  induction s with
  | nil => simp [splitOnSlash]
  | cons c rest ih =>
    have hc : c ≠ '/' := fun hh => h (hh ▸ List.mem_cons_self c rest)
    have hr : '/' ∉ rest := fun hh => h (List.mem_cons_of_mem c hh)
    simp [splitOnSlash, hc, ih hr]

/-- Claim C1: the claim asserts that because `shutdown` waits for the
in-flight enqueue counter to reach zero before closing the channels, no
`ConsumeError` call that has passed the stopped-state check ever writes to
a closed channel. The code violates this: `wg.Add(1)` runs only after the
`state == stopped` check, so `shutdown` can set `stopped`, observe a zero
counter, pass `wg.Wait()`, and close `errorChan` in between; the
interleaving below drives the system from the initial state to a state in
which the `ConsumeError` thread, having passed the check, sends on the
closed channel and panics. -/
theorem C1_send_on_closed_channel_reachable :
    Relation.ReflTransGen RaceStep
      ⟨AppState.started, 0, false, ConsumePc.checkState, ShutdownPc.checkState⟩
      ⟨AppState.stopped, 1, true, ConsumePc.panickedOnClosedChan, ShutdownPc.returned⟩ := by
  refine Relation.ReflTransGen.head
    (RaceStep.consumePassesCheck AppState.started 0 false ShutdownPc.checkState (by decide)) ?_
  refine Relation.ReflTransGen.head
    (RaceStep.shutdownProceeds AppState.started 0 false ConsumePc.addToWaitGroup (by decide)) ?_
  refine Relation.ReflTransGen.head
    (RaceStep.shutdownSetsStopped AppState.started 0 false ConsumePc.addToWaitGroup) ?_
  refine Relation.ReflTransGen.head
    (RaceStep.shutdownWaitReturns AppState.stopped false ConsumePc.addToWaitGroup) ?_
  refine Relation.ReflTransGen.head
    (RaceStep.shutdownCloses AppState.stopped 0 ConsumePc.addToWaitGroup) ?_
  refine Relation.ReflTransGen.head
    (RaceStep.consumeAdds AppState.stopped 0 true ShutdownPc.returned) ?_
  refine Relation.ReflTransGen.head
    (RaceStep.consumeSendsOnClosed AppState.stopped 1 ShutdownPc.returned) ?_
  exact Relation.ReflTransGen.refl

/-- Claim C2: the claim asserts that the stopped state is terminal and
that `start`/`StartWithContext` is a no-op when the state is stopped. The
code checks only `state == started`: evaluated at the stopped state it
sets the state back to started and launches another flush-worker
goroutine. -/
theorem C2_start_restarts_after_stop :
    StartWithContext ⟨AppState.stopped, 1⟩ = ⟨AppState.started, 2⟩ := by
  rfl

/-- Claim C3: for every queue, context, error input, tag list and
timestamp, calling `ConsumeError` while the lifecycle state is stopped
returns the worker-stopped error and enqueues nothing. -/
theorem C3_stopped_rejects_consume (chan : List BackendErrorObjectInput)
    (ctx : Ctx) (errorInput : ErrorInput) (tags : List String) (ts : Nat) :
    ConsumeErrorStep AppState.stopped chan ctx errorInput tags ts =
      (Except.error consumeErrorWorkerStopped, chan) := by
  simp [ConsumeErrorStep, ConsumeError]

/-- Claim C4: when the worker is not stopped, a context lacking the
session identifier key makes `ConsumeError` return the missing-session-ID
error, and a context carrying the session key but lacking the request key
makes it return the missing-request-ID error; in both cases the queue is
unchanged, and the session check is performed first. -/
theorem C4_missing_id_errors (state : AppState)
    (chan : List BackendErrorObjectInput) (ctx : Ctx)
    (errorInput : ErrorInput) (tags : List String) (ts : Nat)
    (hstate : state ≠ AppState.stopped) :
    (ctxValue ctx SessionSecureID = none →
      ConsumeErrorStep state chan ctx errorInput tags ts =
        (Except.error consumeErrorSessionIDMissing, chan)) ∧
    (∀ s, ctxValue ctx SessionSecureID = some s →
      ctxValue ctx RequestID = none →
      ConsumeErrorStep state chan ctx errorInput tags ts =
        (Except.error consumeErrorRequestIDMissing, chan)) := by
  constructor
  · intro hsess
    simp [ConsumeErrorStep, ConsumeError, hstate, hsess]
  · intro s hsess hreq
    simp [ConsumeErrorStep, ConsumeError, hstate, hsess, hreq]

/-- Witness for C4 at concrete inputs: the empty context yields the
missing-session-ID error; a context with only the session key yields the
missing-request-ID error. -/
theorem C4_missing_id_errors_witness :
    ConsumeErrorStep AppState.started [] [] (ErrorInput.plainError "boom") [] 0 =
      (Except.error consumeErrorSessionIDMissing, []) ∧
    ConsumeErrorStep AppState.started [] [(SessionSecureID, "sess1")]
        (ErrorInput.plainError "boom") [] 0 =
      (Except.error consumeErrorRequestIDMissing, []) :=
  ⟨(C4_missing_id_errors AppState.started [] [] (ErrorInput.plainError "boom")
      [] 0 (by decide)).1 rfl,
   (C4_missing_id_errors AppState.started [] [(SessionSecureID, "sess1")]
      (ErrorInput.plainError "boom") [] 0 (by decide)).2 "sess1" (by decide) (by decide)⟩

/-- Claim C5: `flush` snapshots the queue length and removes exactly that
many records, returning them; records that arrive during the drain remain
in the queue for the next cycle, so the snapshot and the arrivals are
never mixed and no record occurrence is drained twice. Stated for
snapshots of real (non-sentinel) records, which is what `ConsumeError`
enqueues. -/
theorem C5_flush_drains_snapshot (q a : List BackendErrorObjectInput)
    (h : ∀ r ∈ q, r ≠ zeroRecord) :
    flush q a = (q, a) := by
  simpa [flush] using drainLoop_snapshot q a h

/-- Witness for C5 at a concrete queue: one enqueued record is flushed,
one record arriving during the drain stays queued. -/
theorem C5_flush_drains_snapshot_witness :
    flush [sampleRecordA] [sampleRecordB] = ([sampleRecordA], [sampleRecordB]) :=
  C5_flush_drains_snapshot [sampleRecordA] [sampleRecordB] (by decide)

/-- Claim C6 counterexample: the claim asserts that when the timer and a
stop signal are ready simultaneously the stop signal is handled in
preference to the timer. Go's `select` chooses uniformly at random among
the ready cases: with every case ready, the timer case may be chosen, and
its body flushes and continues instead of shutting down. -/
theorem C6_timer_chosen_despite_stop_ready :
    selectCanChoose ⟨true, true, true, true⟩ SelectCase.timer = true ∧
    handleCase SelectCase.timer = WorkerAction.flushAndContinue :=
  ⟨rfl, rfl⟩

/-- Claim C6 as amended: when the timer and the interrupt (stop) signal
are both ready, the select may choose either case — choosing the
interrupt case shuts the worker down, but the timer case is equally
eligible and flushes and continues, so stop has no precedence. -/
theorem C6_select_no_priority (r : SelectReady)
    (htimer : r.timerElapsed = true) (hstop : r.interrupt = true) :
    (selectCanChoose r SelectCase.interrupt = true ∧
      handleCase SelectCase.interrupt = WorkerAction.shutdownAndReturn) ∧
    (selectCanChoose r SelectCase.timer = true ∧
      handleCase SelectCase.timer = WorkerAction.flushAndContinue) :=
  ⟨⟨hstop, rfl⟩, ⟨htimer, rfl⟩⟩

/-- Witness for the amended C6 with timer and interrupt ready. -/
theorem C6_select_no_priority_witness :
    (selectCanChoose ⟨true, true, false, false⟩ SelectCase.interrupt = true ∧
      handleCase SelectCase.interrupt = WorkerAction.shutdownAndReturn) ∧
    (selectCanChoose ⟨true, true, false, false⟩ SelectCase.timer = true ∧
      handleCase SelectCase.timer = WorkerAction.flushAndContinue) :=
  C6_select_no_priority ⟨true, true, false, false⟩ rfl rfl

/-- Claim C7: no batch returned by `flush` contains the zero-valued
sentinel record (the receive loop skips it), and triggering the sink with
an empty batch issues no network mutation and returns success, whatever
the network would answer. -/
theorem C7_no_sentinel_no_empty_mutation (q a : List BackendErrorObjectInput)
    (net : List BackendErrorObjectInput → Except String Unit) :
    zeroRecord ∉ (flush q a).1 ∧ trigger net [] = (none, Except.ok ()) := by
  refine ⟨?_, rfl⟩
  simpa [flush] using zeroRecord_notMem_drainLoop (q.length) (q ++ a)

/-- Claim C8: the interception step splits the header on the slash; for a
header `<sessionID>/<requestID>` (one delimiter) it stores the part before
the slash under the session key and the part after it under the request
key, and any header splitting into fewer than two parts (in particular the
empty header) leaves the context unchanged. -/
theorem C8_header_split :
    (∀ (ctx : Ctx) (s r : List Char), '/' ∉ s → '/' ∉ r →
      InterceptRequestWithContext ctx (s ++ '/' :: r) =
        (RequestID, String.mk r) :: (SessionSecureID, String.mk s) :: ctx ∧
      ctxValue (InterceptRequestWithContext ctx (s ++ '/' :: r))
        SessionSecureID = some (String.mk s) ∧
      ctxValue (InterceptRequestWithContext ctx (s ++ '/' :: r))
        RequestID = some (String.mk r)) ∧
    (∀ (ctx : Ctx) (header : List Char), (splitOnSlash header).length < 2 →
      InterceptRequestWithContext ctx header = ctx) := by
  constructor
  · intro ctx s r hs hr
    have hsplit : splitOnSlash (s ++ '/' :: r) = [s, r] := by
      rw [splitOnSlash_append s r hs, splitOnSlash_no_slash r hr]
    have hne : RequestID ≠ SessionSecureID := by decide
    have hmain : InterceptRequestWithContext ctx (s ++ '/' :: r) =
        (RequestID, String.mk r) :: (SessionSecureID, String.mk s) :: ctx := by
      simp [InterceptRequestWithContext, hsplit]
    refine ⟨hmain, ?_, ?_⟩
    · rw [hmain]; simp [ctxValue, hne]
    · rw [hmain]; simp [ctxValue]
  · intro ctx header hlen
    simp [InterceptRequestWithContext, hlen]

/-- Witness for C8 on the spec's scenario header `sess1/req1` and on the
empty header. -/
theorem C8_header_split_witness :
    InterceptRequestWithContext [] ("sess1".data ++ '/' :: "req1".data) =
      [(RequestID, String.mk "req1".data), (SessionSecureID, String.mk "sess1".data)] ∧
    InterceptRequestWithContext [] [] = [] :=
  ⟨(C8_header_split.1 [] "sess1".data "req1".data (by decide) (by decide)).1,
   C8_header_split.2 [] [] (by decide)⟩

/-- Claim C9 counterexample: the claim asserts every enqueued record has
non-empty session and request IDs. `ConsumeError` checks only presence:
with the empty string stored under the session key it succeeds and
enqueues a record whose session ID is empty. -/
theorem C9_empty_session_id_accepted :
    ConsumeError AppState.started [(SessionSecureID, ""), (RequestID, "req1")]
        (ErrorInput.plainError "boom") [] 0 =
      Except.ok
        { sessionSecureID := "", requestID := "req1", event := "boom",
          errType := "BACKEND", url := "", source := "", stackTrace := "boom",
          timestamp := 0, payload := some "[]" } := by
  rfl

/-- Claim C9 as amended: every record `ConsumeError` successfully enqueues
carries exactly the session and request identifier values present in the
context — presence is guaranteed, non-emptiness is not. -/
theorem C9_ids_match_context (state : AppState) (ctx : Ctx)
    (errorInput : ErrorInput) (tags : List String) (ts : Nat)
    (rec : BackendErrorObjectInput)
    (h : ConsumeError state ctx errorInput tags ts = Except.ok rec) :
    ctxValue ctx SessionSecureID = some rec.sessionSecureID ∧
    ctxValue ctx RequestID = some rec.requestID := by
  unfold ConsumeError at h
  split at h
  · simp at h
  · split at h
    · simp at h
    · split at h
      · simp at h
      · split at h
        · split at h
          · simp at h
          · injection h with h2
            subst h2
            simp_all
        · injection h with h2
          subst h2
          simp_all
        · injection h with h2
          subst h2
          simp_all

/-- Witness for the amended C9: the context values are exactly the IDs of
the concretely enqueued record. -/
theorem C9_ids_match_context_witness :
    ctxValue [(SessionSecureID, "sess1"), (RequestID, "req1")] SessionSecureID =
      some sampleRecordA.sessionSecureID ∧
    ctxValue [(SessionSecureID, "sess1"), (RequestID, "req1")] RequestID =
      some sampleRecordA.requestID :=
  C9_ids_match_context AppState.started
    [(SessionSecureID, "sess1"), (RequestID, "req1")]
    (ErrorInput.plainError "boom") [] 3 sampleRecordA rfl

/-- Claim C10: a structured-stack-trace error whose frame list is empty
makes `ConsumeError` return the no-stack-frames error and enqueue
nothing, even with both identifiers present and the worker running. -/
theorem C10_empty_stack_frames_rejected (state : AppState)
    (chan : List BackendErrorObjectInput) (ctx : Ctx)
    (message : String) (frames : List String)
    (tags : List String) (ts : Nat) (s q : String)
    (hstate : state ≠ AppState.stopped)
    (hsess : ctxValue ctx SessionSecureID = some s)
    (hreq : ctxValue ctx RequestID = some q)
    (hframes : frames.length < 1) :
    ConsumeErrorStep state chan ctx (ErrorInput.stackTracerErr message frames)
      tags ts = (Except.error consumeErrorNoStackFrames, chan) := by
  simp [ConsumeErrorStep, ConsumeError, hstate, hsess, hreq, hframes]

/-- Witness for C10 with a running worker, a fully populated context and a
frameless stack-tracer error. -/
theorem C10_empty_stack_frames_rejected_witness :
    ConsumeErrorStep AppState.started []
        [(SessionSecureID, "sess1"), (RequestID, "req1")]
        (ErrorInput.stackTracerErr "boom" []) [] 0 =
      (Except.error consumeErrorNoStackFrames, []) :=
  C10_empty_stack_frames_rejected AppState.started []
    [(SessionSecureID, "sess1"), (RequestID, "req1")] "boom" [] [] 0
    "sess1" "req1" (by decide) (by decide) (by decide) (by decide)

end Highlight
